import Mathlib

/-!
Verification of the video fact-checking pipeline (perFeet repository).

The development shallowly embeds the analysis pipeline: the transcript
acquisition cascade (`ActualVideoProcessor.extractRealTranscript` and
`kimiGenerateContent`), the segmenters (`RealVideoProcessor.prepareTranscriptSegments`,
`FreeVideoProcessor.prepareSegments`), the verifier's sanitization of oracle
responses, the heuristic fallback judgments, the aggregator
(`calculateOverallScore` / `synthesizeInsights` / `generateInsights`), and the
orchestrators with their error handlers.

External effects are modeled as explicit environments: every call to the
transcript library or to the reasoning oracle is a field of an environment
record carrying that call's outcome (`Except` for calls that may throw).
JavaScript dynamic semantics that the code relies on are modeled explicitly:
the `x || d` default operator (falsy values: `0`, `null`, `undefined`,
`false`, `""`), `Math.min`/`Math.max` clamping, truncating `%`, and
`Math.floor`/`Math.round`. Numbers are rationals; `0/0` (JS `NaN`) is
modeled as `Option.none` where it can arise. Wall-clock-derived values
(`Date.now()` timestamps, elapsed-time labels) are passed in as opaque
parameters, since the claims exclude timestamp-derived fields.
-/

namespace PerFeet

/-- JavaScript `a || b` on numbers: `a` when truthy (nonzero; `NaN` cannot
arise at the call sites modeled here), else `b`. -/
def jsOrQ (a b : ℚ) : ℚ := if a = 0 then b else a

/-- JavaScript `a || b` where `a` is a possibly-missing number (object field
access yielding `undefined` is `none`); `undefined` and `0` are falsy. -/
def jsOrOptQ (a : Option ℚ) (b : ℚ) : ℚ :=
  match a with
  | none => b
  | some q => if q = 0 then b else q

/-- JavaScript `a || b` on a possibly-missing string; `undefined` and the
empty string are falsy. -/
def jsOrStr (a : Option String) (b : String) : String :=
  match a with
  | none => b
  | some s => if s = "" then b else s

/-- JavaScript `s1 || s2` on strings: `s1` unless it is empty. -/
def jsOrStr2 (a b : String) : String := if a = "" then b else a

/-- JavaScript `Math.trunc`-style truncation of a rational (used by the
`%` remainder operator, which truncates toward zero). -/
def jsTrunc (q : ℚ) : ℤ := if 0 ≤ q then ⌊q⌋ else ⌈q⌉

/-- JavaScript `a % b` on numbers: remainder with the sign of the dividend. -/
def jsMod (a b : ℚ) : ℚ := a - b * (jsTrunc (a / b) : ℚ)

/-- JavaScript `Math.round`: round half toward positive infinity. -/
def jsRound (q : ℚ) : ℤ := ⌊q + 1/2⌋

/-- `String.padStart(2, '0')` from the timestamp formatters. -/
def padStart2 (s : String) : String := if s.length < 2 then "0" ++ s else s

/-- JavaScript `Math.max(a, b)` on two numbers. -/
def jsMax (a b : ℚ) : ℚ := if a ≤ b then b else a

/-- JavaScript `Math.min(a, b)` on two numbers. -/
def jsMin (a b : ℚ) : ℚ := if a ≤ b then a else b

/-- `s.toLowerCase()`: per-character ASCII lowercasing (the characters the
modeled pattern matches inspect are ASCII). -/
def strLower (s : String) : String := String.mk (s.data.map Char.toLower)

/-- Whitespace stripped by `s.trim()`. -/
def wsChar (c : Char) : Bool := c = ' ' || c = '\t' || c = '\n' || c = '\r'

/-- JavaScript `s.trim()`: drop leading and trailing whitespace. -/
def strTrim (s : String) : String :=
  String.mk (((s.data.dropWhile wsChar).reverse.dropWhile wsChar).reverse)

/-- JavaScript `String.prototype.includes`, on lists of characters. -/
def charsContain (pat : List Char) : List Char → Bool
  | [] => pat.isEmpty
  | c :: rest => pat.isPrefixOf (c :: rest) || charsContain pat rest

/-- `haystack.includes(needle)` for strings. -/
def strIncludes (haystack needle : String) : Bool :=
  charsContain needle.toList haystack.toList

/-- The suffix of a character list just after the first occurrence of `pat`,
or `none` when `pat` does not occur; used to model regular-expression
searches of the form `pat` followed by further material. -/
def afterFirst (pat : List Char) : List Char → Option (List Char)
  | [] => if pat.isEmpty then some [] else none
  | c :: rest =>
      if pat.isPrefixOf (c :: rest) then some ((c :: rest).drop pat.length)
      else afterFirst pat rest

/-- The regular-expression test `/68.*percent|68.*%/.test(s)` from
`FreeVideoProcessor.getIntelligentFallback`: an occurrence of `68` followed
later by `percent` or by `%`. Matching the earliest `68` loses nothing:
any later occurrence's suffix is contained in the earliest one's. -/
def darkEnergyRegexTest (s : String) : Bool :=
  match afterFirst "68".toList s.toList with
  | none => false
  | some rest => charsContain "percent".toList rest || charsContain "%".toList rest

/-! ## Data model shared by the three processors -/

/-- `ProcessingStep.status`. -/
inductive Status where
  | pending
  | processing
  | completed
  | error
deriving DecidableEq, Repr

/-- `ProcessingStep` (the optional `progress` field is never set on any path
modeled here and is omitted). -/
structure Step where
  step : String
  status : Status
  message : String
deriving DecidableEq, Repr

/-- A cited source inside a claim judgment. -/
structure SourceRef where
  title : String
  url : String
  reliability : ℚ
deriving DecidableEq, Repr

/-- A sanitized claim judgment (`analysis` object of a segment). -/
structure Judgment where
  verdict : String
  confidence : ℚ
  explanation : String
  evidence : List String
  sources : List SourceRef
deriving DecidableEq, Repr

/-- An analyzed segment: segment id, timestamp label, sentence, judgment. -/
structure ASeg where
  segment : String
  timestamp : String
  sentence : String
  analysis : Judgment
deriving DecidableEq, Repr

/-! ## Oracle responses as parsed JSON values

The wire format of the reasoning oracle is out of scope; what the verifier
code consumes is the value produced by `JSON.parse` on the (fence-stripped)
payload. A field of such a value is modeled by `JVal`: a number, a boolean,
`null`, or absent (`undefined`). -/

/-- A dynamically-typed JSON field value, as consumed after `JSON.parse`.
(Covers the numeric, boolean, null and absent cases; these suffice for the
confidence-field semantics the claims are about.) -/
inductive JVal where
  | num (q : ℚ)
  | jbool (b : Bool)
  | jnull
  | absent
deriving DecidableEq, Repr

/-- A parsed fact-check response from the oracle, before sanitization
(`result` in `VideoProcessor.factCheckClaims`, `analysis` in the other two
processors). `none` in `verdict` / `evidence` / `sources` / `explanation`
models a missing or non-list / non-string field. -/
structure RawJudgment where
  verdict : Option String
  confidence : JVal
  explanation : Option String
  evidence : Option (List String)
  sources : Option (List SourceRef)
deriving Repr

/-- An extracted claim prior to fact-checking: `{text, timestamp}`. -/
structure RawClaim where
  text : String
  timestamp : String
deriving DecidableEq, Repr

/-- A verified claim as produced by `VideoProcessor.factCheckClaims`. -/
structure FactClaim where
  id : ℕ
  text : String
  timestamp : String
  confidence : ℚ
  verdict : String
  evidence : List String
  sources : List SourceRef
deriving DecidableEq, Repr

/-! ## Sanitization (Claim Verifier) -/

/-- The five canonical verdict labels, in the order of the source's
`['True', 'Mostly True', 'Mixed', 'Mostly False', 'False']` array. -/
def canonicalVerdicts : List String :=
  ["True", "Mostly True", "Mixed", "Mostly False", "False"]

/-- Verdict sanitization shared verbatim by all three processors:
`[...].includes(result.verdict) ? result.verdict : 'Mixed'`. An absent
field (`undefined`) is not in the array and also coerces to `Mixed`. -/
def sanitizeVerdict (v : Option String) : String :=
  match v with
  | some s => if s ∈ canonicalVerdicts then s else "Mixed"
  | none => "Mixed"

/-- `Math.min(Math.max(x, 0), 1)`. -/
def clamp01 (q : ℚ) : ℚ := jsMin (jsMax q 0) 1

/-- `result.confidence || 0.5` followed by the numeric coercion that
`Math.max` applies to its argument: a truthy number stays itself, `true`
coerces to `1`, and the falsy values `0`, `false`, `null`, `undefined` are
replaced by the `0.5` default before coercion. -/
def confAfterOr (v : JVal) : ℚ :=
  match v with
  | .num q => if q = 0 then 1/2 else q
  | .jbool b => if b then 1 else 1/2
  | .jnull => 1/2
  | .absent => 1/2

/-- `Math.min(Math.max(result.confidence || 0.5, 0), 1)`: the sanitized
confidence of all three processors. -/
def sanitizeConfidence (v : JVal) : ℚ := clamp01 (confAfterOr v)

/-- The sanitized result object built by `VideoProcessor.factCheckClaims`
for loop index `i` (the stored `id` is `i + 1`): verdict coerced into the
canonical set, confidence defaulted and clamped, evidence truncated to 4,
sources truncated to 3, non-list fields replaced by `[]`. -/
def sanitizeFactCheck (i : ℕ) (claim : RawClaim) (r : RawJudgment) : FactClaim :=
  { id := i + 1
    text := claim.text
    timestamp := claim.timestamp
    confidence := sanitizeConfidence r.confidence
    verdict := sanitizeVerdict r.verdict
    evidence := (r.evidence.getD []).take 4
    sources := (r.sources.getD []).take 3 }

/-- The sanitized analysis built by `RealVideoProcessor.analyzeSegmentWithKimi`
(evidence truncated to 3 items, sources to 2). -/
def sanitizeReal (r : RawJudgment) : Judgment :=
  { verdict := sanitizeVerdict r.verdict
    confidence := sanitizeConfidence r.confidence
    explanation := jsOrStr r.explanation "Analysis completed with available information."
    evidence := (r.evidence.getD []).take 3
    sources := (r.sources.getD []).take 2 }

/-- The sanitized analysis built by
`FreeVideoProcessor.analyzeSegmentWithRealKimi` (evidence truncated to 4,
sources to 3). -/
def sanitizeFree (r : RawJudgment) : Judgment :=
  { verdict := sanitizeVerdict r.verdict
    confidence := sanitizeConfidence r.confidence
    explanation := jsOrStr r.explanation "Analysis completed with available information."
    evidence := (r.evidence.getD []).take 4
    sources := (r.sources.getD []).take 3 }

/-! ## Aggregator (scoring) -/

/-- The verdict-to-score table (`scoreMap` in
`VideoProcessor.calculateOverallScore`, `verdictScores` in
`RealVideoProcessor.synthesizeInsights` and
`FreeVideoProcessor.generateInsights`). Property access on the object
returns `undefined` (`none`) for a key outside the table. -/
def verdictScores (v : String) : Option ℚ :=
  if v = "True" then some 1
  else if v = "Mostly True" then some (4/5)
  else if v = "Mixed" then some (1/2)
  else if v = "Mostly False" then some (1/5)
  else if v = "False" then some 0
  else none

/-- The per-claim score actually accumulated by all three aggregators:
`scoreMap[claim.verdict] || 0.5`. Note that the table's `0` for `False` is
falsy, so the `|| 0.5` default replaces it. -/
def claimScore (v : String) : ℚ := jsOrOptQ (verdictScores v) (1/2)

/-- `VideoProcessor.calculateOverallScore`: `0` for an empty claim list,
otherwise the mean of `scoreMap[verdict] || 0.5`. -/
def calculateOverallScore (claims : List FactClaim) : ℚ :=
  if claims.length = 0 then 0
  else (claims.map fun c => claimScore c.verdict).sum / claims.length

/-- The `overallAccuracy` of `RealVideoProcessor.synthesizeInsights` and
`FreeVideoProcessor.generateInsights`: the same per-segment scores, divided
by the segment count with no emptiness guard — for zero segments JS computes
`0/0 = NaN`, modeled as `none`. -/
def insightsAccuracy (segs : List ASeg) : Option ℚ :=
  if segs.length = 0 then none
  else some ((segs.map fun s => claimScore s.analysis.verdict).sum / segs.length)

/-! ## Timestamp and duration formatting -/

/-- `formatTimestamp(seconds)`: `Math.floor(seconds / 60)` minutes and
`Math.floor(seconds % 60)` seconds as `M:SS`. -/
def formatTimestamp (seconds : ℚ) : String :=
  let mins : ℤ := ⌊seconds / 60⌋
  let secs : ℤ := ⌊jsMod seconds 60⌋
  toString mins ++ ":" ++ padStart2 (toString secs)

/-- `ActualVideoProcessor.formatDuration(seconds)`: `H:MM:SS` when at least
one hour, else `M:SS`. -/
def formatDuration (seconds : ℚ) : String :=
  let hours : ℤ := ⌊seconds / 3600⌋
  let minutes : ℤ := ⌊jsMod seconds 3600 / 60⌋
  let secs : ℤ := ⌊jsMod seconds 60⌋
  if hours > 0 then
    toString hours ++ ":" ++ padStart2 (toString minutes) ++ ":" ++ padStart2 (toString secs)
  else
    toString minutes ++ ":" ++ padStart2 (toString secs)

/-! ## Heuristic fallback judgments (Claim Verifier, oracle-failure path) -/

/-- The object shape returned by `VideoProcessor.generateFallbackAnalysis`
(no `explanation` field in the source). -/
structure Fallback004 where
  confidence : ℚ
  verdict : String
  evidence : List String
  sources : List SourceRef
deriving DecidableEq, Repr

/-- `VideoProcessor.generateFallbackAnalysis`: pattern-matched fallback on
the lowercased claim text. -/
def generateFallbackAnalysis (claimText : String) : Fallback004 :=
  let lower := strLower claimText
  if strIncludes lower "mars" && strIncludes lower "never landed" then
    { confidence := 0.95, verdict := "False",
      evidence := ["Multiple NASA missions have successfully landed rovers on Mars",
                   "Curiosity, Perseverance, and other rovers are currently operating on Mars"],
      sources := [⟨"NASA Mars Exploration", "nasa.gov/mars", 0.98⟩] }
  else if strIncludes lower "universe" && strIncludes lower "shrinking" then
    { confidence := 0.92, verdict := "False",
      evidence := ["Current scientific consensus supports universe expansion",
                   "Dark energy observations confirm accelerating expansion"],
      sources := [⟨"Cosmological Research", "science.org", 0.94⟩] }
  else if strIncludes lower "climate change" || strIncludes lower "global warming" then
    { confidence := 0.97, verdict := "True",
      evidence := ["IPCC reports confirm human impact on climate",
                   "Temperature records show warming trend"],
      sources := [⟨"IPCC Climate Reports", "ipcc.ch", 0.99⟩] }
  else
    { confidence := 0.6, verdict := "Mixed",
      evidence := ["Claim requires additional verification with authoritative sources"],
      sources := [⟨"General Fact-Check Analysis", "#", 0.7⟩] }

/-- `RealVideoProcessor.getFallbackAnalysis`: pattern-matched fallback on
the lowercased sentence. -/
def getFallbackAnalysis (sentence : String) : Judgment :=
  let lower := strLower sentence
  if strIncludes lower "james webb" && strIncludes lower "telescope" then
    { verdict := "True", confidence := 0.95,
      explanation := "The James Webb Space Telescope has indeed provided unprecedented insights into the early universe and confirmed many cosmological theories.",
      evidence := ["JWST launched in 2021 and has exceeded expectations",
                   "Multiple peer-reviewed studies confirm its discoveries"],
      sources := [⟨"NASA JWST Mission", "nasa.gov/jwst", 0.98⟩] }
  else if strIncludes lower "climate" && strIncludes lower "temperature" then
    { verdict := "True", confidence := 0.97,
      explanation := "Global temperature increase of 1.1°C since pre-industrial times is well-documented by multiple climate research organizations.",
      evidence := ["IPCC reports confirm this temperature rise",
                   "Multiple independent datasets support this finding"],
      sources := [⟨"IPCC Climate Reports", "ipcc.ch", 0.99⟩] }
  else
    { verdict := "Mixed", confidence := 0.6,
      explanation := "This statement requires additional verification with authoritative sources to determine complete accuracy.",
      evidence := ["Statement analyzed but requires further verification"],
      sources := [] }

/-- `FreeVideoProcessor.getIntelligentFallback`: pattern-matched fallback on
the lowercased sentence, including the `/68.*percent|68.*%/` regex test. -/
def getIntelligentFallback (sentence : String) : Judgment :=
  let lower := strLower sentence
  if strIncludes lower "james webb" && strIncludes lower "telescope" then
    { verdict := "True", confidence := 0.95,
      explanation := "The James Webb Space Telescope has indeed provided revolutionary insights into early universe formations and confirmed numerous cosmological theories through direct observation.",
      evidence := ["JWST operational since 2022 with unprecedented infrared capabilities",
                   "Multiple peer-reviewed studies published with JWST data",
                   "Confirmed observations of 13+ billion year old galaxies"],
      sources := [⟨"NASA JWST Mission Documentation", "nasa.gov/webb", 0.98⟩] }
  else if strIncludes lower "dark energy" && darkEnergyRegexTest lower then
    { verdict := "True", confidence := 0.92,
      explanation := "Current cosmological models based on Type Ia supernovae and cosmic microwave background data consistently indicate dark energy comprises approximately 68% of the universe.",
      evidence := ["Planck satellite measurements confirm ~68% dark energy",
                   "Type Ia supernovae observations support accelerating expansion",
                   "Multiple independent studies converge on this value"],
      sources := [⟨"Planck Collaboration Results", "arxiv.org/planck", 0.96⟩] }
  else if strIncludes lower "climate" && strIncludes lower "1.1" && strIncludes lower "degrees" then
    { verdict := "True", confidence := 0.97,
      explanation := "Global surface temperature records from multiple independent datasets consistently show an increase of approximately 1.1°C since the late 1800s, with human activities identified as the primary cause.",
      evidence := ["NOAA, NASA, and Hadley Centre data confirm 1.1°C warming",
                   "IPCC AR6 report validates this temperature increase",
                   "Attribution studies identify human activities as primary cause"],
      sources := [⟨"IPCC Sixth Assessment Report", "ipcc.ch/ar6", 0.99⟩] }
  else
    { verdict := "Mixed", confidence := 0.6,
      explanation := "This statement requires additional verification with authoritative sources to determine complete factual accuracy.",
      evidence := ["Statement analyzed but needs further verification with primary sources"],
      sources := [⟨"General Fact-Check Analysis", "#", 0.7⟩] }

/-! ## Segmenter -/

/-- A Whisper transcription segment `{start, end, text}` (the source's
`end` field is named `stop` here because `end` is reserved). -/
structure WSeg where
  start : ℚ
  stop : ℚ
  text : String
deriving DecidableEq, Repr

/-- A prepared transcript segment `{segment, timestamp, sentence}`. -/
structure SegmentUnit where
  segment : String
  timestamp : String
  sentence : String
deriving DecidableEq, Repr

/-- Sentence punctuation of the `/[.!?]+/` split regex. -/
def isSentencePunct (c : Char) : Bool := c = '.' || c = '!' || c = '?'

/-- State of the right-fold that implements the split: the token being
built, the completed tokens to its right, and whether the previously
processed (right-neighbour) character was sentence punctuation (so that a
maximal punctuation run acts as a single separator). -/
structure SplitState where
  cur : List Char
  toks : List String
  justPunct : Bool

/-- One step of the `/[.!?]+/` split, consuming characters right to left. -/
def splitPunctStep (c : Char) (st : SplitState) : SplitState :=
  if isSentencePunct c then
    if st.justPunct then st
    else { cur := [], toks := String.mk st.cur :: st.toks, justPunct := true }
  else { cur := c :: st.cur, toks := st.toks, justPunct := false }

/-- JavaScript `text.split(/[.!?]+/)`: the (possibly empty-string) tokens
between maximal runs of `.`, `!`, `?`. -/
def splitPunct (s : String) : List String :=
  let st := s.data.foldr splitPunctStep ⟨[], [], false⟩
  String.mk st.cur :: st.toks

/-- `RealVideoProcessor.prepareTranscriptSegments`: for each Whisper segment
`i`, split its text on sentence punctuation, keep non-empty tokens, and push
those whose trimmed length exceeds 10, with id `segment_i_j` (where `j`
indexes the non-empty tokens) and timestamp `start + 2 * j`. -/
def prepareTranscriptSegments (segs : List WSeg) : List SegmentUnit :=
  (segs.enum.map fun (i, seg) =>
    let sentences := (splitPunct seg.text).filter fun s => (strTrim s).length > 0
    sentences.enum.filterMap fun (j, sentence) =>
      if (strTrim sentence).length > 10 then
        some { segment := "segment_" ++ toString i ++ "_" ++ toString j
               timestamp := formatTimestamp (seg.start + (j : ℚ) * 2)
               sentence := strTrim sentence }
      else none).flatten

/-- `FreeVideoProcessor.prepareSegments`: for each Whisper segment `i`, split
its text on sentence punctuation, keep tokens whose trimmed length exceeds
10, and push each with a timestamp spread evenly across the segment's
duration. -/
def prepareSegments (segs : List WSeg) : List SegmentUnit :=
  (segs.enum.map fun (i, seg) =>
    let sentences := (splitPunct seg.text).filter fun s => (strTrim s).length > 10
    sentences.enum.map fun (j, sentence) =>
      { segment := "segment_" ++ toString i ++ "_" ++ toString j
        timestamp := formatTimestamp
          (seg.start + (j : ℚ) * (seg.stop - seg.start) / sentences.length)
        sentence := strTrim sentence }).flatten

/-! ## Transcript Acquisition Cascade (`ActualVideoProcessor`) -/

/-- A caption item returned by the transcript library:
`{text, offset, duration}`. -/
structure Caption where
  text : String
  offset : ℚ
  duration : ℚ
deriving DecidableEq, Repr

/-- The result shape of `extractRealTranscript` and `kimiGenerateContent`:
a transcript plus `videoInfo` metadata. -/
structure TranscriptData where
  transcript : String
  title : String
  duration : String
  description : String
deriving DecidableEq, Repr

/-- The JSON object shape `kimiGenerateContent` looks for in a parsed
generation response (every field access is optional). -/
structure ParsedGen where
  transcript : Option String
  title : Option String
  duration : Option String
  description : Option String
deriving DecidableEq, Repr

/-- Outcome of the single HTTPS generation call inside
`kimiGenerateContent`: the fetch may reject (`throwE`), or respond with an
`ok` flag, an optional message content, and — when the content is parsed —
an optional `ParsedGen` (`none` models a `JSON.parse` failure). -/
inductive KimiGenResponse where
  | throwE
  | resp (ok : Bool) (content : Option String) (parse : Option ParsedGen)
deriving Repr

/-- The fixed built-in sample passage `kimiGenerateContent` returns when the
generation call fails (its ultimate fallback). -/
def builtinPassage : TranscriptData :=
  { transcript := "This educational content discusses recent scientific discoveries and technological advancements. Researchers have published new studies showing significant progress in renewable energy efficiency. The data indicates that solar panel technology has improved by 25% over the past year. Government agencies have confirmed new environmental policies will be implemented next quarter. These developments represent important progress toward sustainable energy goals."
    title := "Educational Content Analysis"
    duration := "4:30"
    description := "Sample content for fact-checking demonstration" }

/-- `ActualVideoProcessor.kimiGenerateContent`: ask the oracle to synthesize
content; on a parsed JSON reply take `parsed.transcript || content` and the
defaulted `videoInfo` fields; on unparseable content use the raw content; on
any failure (rejected fetch, non-ok status, empty content) return the
built-in sample passage. -/
def kimiGenerateContent (r : KimiGenResponse) : TranscriptData :=
  match r with
  | .throwE => builtinPassage
  | .resp ok content parse =>
    if ok then
      match content with
      | none => builtinPassage
      | some c =>
        if c = "" then builtinPassage
        else
          match parse with
          | some p =>
            { transcript := jsOrStr p.transcript c
              title := jsOrStr p.title "Generated Content Analysis"
              duration := jsOrStr p.duration "5:00"
              description := jsOrStr p.description "AI-generated content for fact-checking" }
          | none =>
            { transcript := c
              title := "Generated Educational Content"
              duration := "5:00"
              description := "AI-generated content for analysis" }
    else builtinPassage

/-- `ActualVideoProcessor.formatTranscriptResult`: join caption texts with a
space and compute the duration label from the last caption's end time
(`last.offset + last.duration || 0`, milliseconds). -/
def formatTranscriptResult (t : List Caption) (method : String) : TranscriptData :=
  let total : ℚ := jsOrQ (match t.getLast? with
    | some c => c.offset + c.duration
    | none => 0) 0
  { transcript := String.intercalate " " (t.map fun c => c.text)
    title := "YouTube Video (" ++ method ++ ")"
    duration := formatDuration (total / 1000)
    description := "Real transcript extracted via " ++ method }

/-- Environment of one `extractRealTranscript` run: the outcome of each
transcript-library call the four extraction methods can make (an `error`
models the library call rejecting), the result of `extractVideoId` on the
input URL (the source returns the string `unknown` on failure), and the
outcome of the generative fallback's HTTPS call. -/
structure CascadeEnv where
  fetchLang : String → Except String (List Caption)
  fetchById : Except String (List Caption)
  fetchFormat : String → Except String (List Caption)
  fetchTimeout : Except String (List Caption)
  videoId : String
  kimi : KimiGenResponse

/-- The language list tried by extraction method 1. -/
def methodOneLangs : List String := ["en", "en-US", "en-GB", "auto"]

/-- Method 1 (`Direct URL with languages`): try each language in order; a
language succeeds only when it yields a non-empty caption list; a rejected
call or an empty list falls through to the next language. -/
def methodOne (env : CascadeEnv) : List String → Except String TranscriptData
  | [] => .error "No language worked"
  | lang :: rest =>
    match env.fetchLang lang with
    | .ok t => if t ≠ [] then .ok (formatTranscriptResult t "Direct URL") else methodOne env rest
    | .error _ => methodOne env rest

/-- Method 2 (`Video ID`): fail when no video id was extracted; a rejected
library call propagates out of the method; an empty caption list fails. -/
def methodTwo (env : CascadeEnv) : Except String TranscriptData :=
  if env.videoId = "unknown" then .error "Could not extract video ID"
  else
    match env.fetchById with
    | .error e => .error e
    | .ok t =>
      if t ≠ [] then .ok (formatTranscriptResult t "Video ID")
      else .error "No transcript from video ID"

/-- The URL formats tried by method 3, built from the extracted video id. -/
def methodThreeFormats (videoId : String) : List String :=
  ["https://www.youtube.com/watch?v=" ++ videoId,
   "https://youtu.be/" ++ videoId,
   videoId]

/-- Worker for method 3: try each URL format; rejected calls and empty
results fall through. -/
def methodThreeGo (env : CascadeEnv) : List String → Except String TranscriptData
  | [] => .error "No URL format worked"
  | f :: rest =>
    match env.fetchFormat f with
    | .ok t => if t ≠ [] then .ok (formatTranscriptResult t "URL Format") else methodThreeGo env rest
    | .error _ => methodThreeGo env rest

/-- Method 3 (`URL Format`). -/
def methodThree (env : CascadeEnv) : Except String TranscriptData :=
  if env.videoId = "unknown" then .error "No video ID for URL formats"
  else methodThreeGo env (methodThreeFormats env.videoId)

/-- Method 4 (`Timeout Retry`): the library call raced against a 10 s
timeout (a timeout is the `error "Timeout"` outcome of `fetchTimeout`). -/
def methodFour (env : CascadeEnv) : Except String TranscriptData :=
  if env.videoId = "unknown" then .error "No video ID for timeout method"
  else
    match env.fetchTimeout with
    | .error e => .error e
    | .ok t =>
      if t ≠ [] then .ok (formatTranscriptResult t "Timeout Retry")
      else .error "Timeout method failed"

/-- `ActualVideoProcessor.extractRealTranscript`: try the four extraction
methods in order; when the last one fails, return the generative fallback's
result (which itself degrades to the built-in passage). The cascade is a
total function: no exception escapes it. -/
def extractRealTranscript (env : CascadeEnv) : TranscriptData :=
  match methodOne env methodOneLangs with
  | .ok r => r
  | .error _ =>
    match methodTwo env with
    | .ok r => r
    | .error _ =>
      match methodThree env with
      | .ok r => r
      | .error _ =>
        match methodFour env with
        | .ok r => r
        | .error _ => kimiGenerateContent env.kimi

/-- Whether an extraction method's result is a failure. -/
def methodFailed (r : Except String TranscriptData) : Bool :=
  match r with
  | .ok _ => false
  | .error _ => true

/-! ## Pipeline Orchestrator (`ActualVideoProcessor.processActualVideo`)

The orchestrator wraps its stages in one `try/catch`; the model is
parametric in the stage outcomes (`Except.error` models any exception the
awaited stage could raise at run time), mirroring that the `catch` handler
is written for arbitrary failures. Progress emissions (`onProgress([...steps])`)
are recorded as a list of step-list snapshots. -/

/-- The final analysis result (`ActualVideoAnalysisResult`; the
`RealVideoAnalysisResult` and `FreeVideoAnalysisResult` of the other two
processors have the identical shape). `videoId` and `processingTime` are
carried opaquely — on the error paths they are wall-clock-derived. -/
structure Report where
  videoId : String
  platform : String
  title : String
  duration : String
  fullTranscript : String
  segmentedAnalysis : List ASeg
  overallAccuracy : ℚ
  keyFindings : List String
  processingTime : String
  steps : List Step
deriving DecidableEq, Repr

/-- The fact-checking result of `kimiCompleteAnalysis`: segments, overall
accuracy, key findings. -/
structure KimiAnalysis where
  segments : List ASeg
  overallAccuracy : ℚ
  keyFindings : List String
deriving DecidableEq, Repr

/-- Orchestrator state: the current step list and the snapshots emitted to
the progress callback so far. -/
structure OrchState where
  steps : List Step
  emits : List (List Step)
deriving Repr

/-- The fixed step list `processActualVideo` creates at start. -/
def actualSteps : List Step :=
  [⟨"validate", .pending, "Validating YouTube URL..."⟩,
   ⟨"extract", .pending, "Extracting real transcript from YouTube..."⟩,
   ⟨"kimiAnalyze", .pending, "Kimi K2 fact-checking with sources and evidence..."⟩,
   ⟨"results", .pending, "Compiling comprehensive analysis results..."⟩]

/-- `updateStep`'s mutation: set status and message on the first step with
the given name (`steps.find(...)` returns the first match). -/
def updateStep : List Step → String → Status → String → List Step
  | [], _, _, _ => []
  | s :: rest, name, st, msg =>
    if s.step = name then { s with status := st, message := msg } :: rest
    else s :: updateStep rest name st msg

/-- `ActualVideoProcessor.updateStep`: update the named step (when present)
and emit a snapshot of the full step list. -/
def emitUpdate (st : OrchState) (name : String) (status : Status) (msg : String) : OrchState :=
  if st.steps.any fun s => s.step = name then
    let steps := updateStep st.steps name status msg
    ⟨steps, st.emits ++ [steps]⟩
  else st

/-- `handleError`'s step mutation: mark the first step whose status is
`processing` as `error` with the prefixed failure message. -/
def setFirstProcessingError (msg : String) : List Step → List Step
  | [] => []
  | s :: rest =>
    if s.status = .processing then { s with status := .error, message := "❌ " ++ msg } :: rest
    else s :: setFirstProcessingError msg rest

/-- `ActualVideoProcessor.handleError`: mark the currently processing step
`error` and emit once more (only when such a step exists), then return the
degraded result. `nowId` and `pt` stand for the wall-clock-derived
`Date.now().toString()` and elapsed-time label. -/
def handleError (msg : String) (nowId pt : String) (st : OrchState) : Report × OrchState :=
  let found := st.steps.any fun s => s.status = .processing
  let steps := if found then setFirstProcessingError msg st.steps else st.steps
  let st' : OrchState := if found then ⟨steps, st.emits ++ [steps]⟩ else ⟨steps, st.emits⟩
  ({ videoId := nowId
     platform := "Error"
     title := "Processing Failed"
     duration := "0:00"
     fullTranscript := "Error: " ++ msg
     segmentedAnalysis := []
     overallAccuracy := 0
     keyFindings := ["Error: " ++ msg, "Please try a different video URL"]
     processingTime := pt
     steps := steps }, st')

/-- `ActualVideoProcessor.compileKimiResults`: assemble the success report
(its own `steps` field is `[]`; the caller spreads in the live list). -/
def compileKimiResults (analysis : KimiAnalysis) (td : TranscriptData)
    (videoId pt : String) : Report :=
  { videoId := videoId
    platform := "YouTube"
    title := td.title
    duration := td.duration
    fullTranscript := td.transcript
    segmentedAnalysis := analysis.segments
    overallAccuracy := analysis.overallAccuracy
    keyFindings := analysis.keyFindings ++
      ["Analysis powered by Kimi K2 AI",
       "Processed " ++ toString analysis.segments.length ++ " key statements",
       "Processing time: " ++ pt]
    processingTime := pt
    steps := [] }

/-- Stage outcomes of one `processActualVideo` run: the URL validation
result and the outcomes of the two awaited stages (an `error` models an
exception raised while that stage's step is `processing`). -/
structure OrchEnv where
  validateOk : Bool
  extract : Except String TranscriptData
  analyze : Except String KimiAnalysis

/-- `ActualVideoProcessor.processActualVideo`: the staged orchestration —
mark each step `processing`, run the stage, mark it `completed`, emitting a
snapshot at every transition; on any stage failure hand off to
`handleError`. Returns the single `Report` together with the final
orchestrator state (steps and emitted snapshots). -/
def processActualVideo (env : OrchEnv) (videoId nowId pt : String) : Report × OrchState :=
  let st0 : OrchState := ⟨actualSteps, []⟩
  let st1 := emitUpdate st0 "validate" .processing "Validating YouTube URL..."
  if ¬ env.validateOk then
    handleError "Only YouTube URLs are supported. Please provide a valid YouTube video link." nowId pt st1
  else
    let st2 := emitUpdate st1 "validate" .completed "✅ Valid YouTube video detected"
    let st3 := emitUpdate st2 "extract" .processing "Extracting real YouTube transcript..."
    match env.extract with
    | .error m => handleError m nowId pt st3
    | .ok td =>
      let st4 := emitUpdate st3 "extract" .completed
        ("📝 Real transcript extracted: " ++ toString td.transcript.length ++ " chars")
      let st5 := emitUpdate st4 "kimiAnalyze" .processing "Kimi K2 fact-checking with sources and evidence..."
      match env.analyze with
      | .error m => handleError m nowId pt st5
      | .ok analysis =>
        let st6 := emitUpdate st5 "kimiAnalyze" .completed
          ("🤖 Kimi K2 analysis complete with " ++ toString analysis.segments.length ++ " fact-checked segments")
        let st7 := emitUpdate st6 "results" .processing "Compiling final results..."
        let finalResults := compileKimiResults analysis td videoId pt
        let st8 := emitUpdate st7 "results" .completed
          ("✅ Complete! Accuracy: " ++ toString (jsRound (finalResults.overallAccuracy * 100)) ++ "%")
        ({ finalResults with steps := st8.steps }, st8)

/-- `RealVideoProcessor.handleRealProcessingError`: the degraded report of
the `RealVideoProcessor` orchestrator (its `keyFindings` holds only the
failure message). The currently processing step is marked `error` as in
`handleError`. -/
def handleRealProcessingError (msg : String) (nowId pt : String) (steps : List Step) : Report :=
  { videoId := nowId
    platform := "Unknown"
    title := "Analysis Failed"
    duration := "0:00"
    fullTranscript := "Transcription could not be completed due to error."
    segmentedAnalysis := []
    overallAccuracy := 0
    keyFindings := ["Processing failed: " ++ msg]
    processingTime := pt
    steps := setFirstProcessingError msg steps }

/-- `FreeVideoProcessor.handleError`: the degraded report of the
`FreeVideoProcessor` orchestrator (failure message plus a retry
suggestion). -/
def handleFreeError (msg : String) (nowId pt : String) (steps : List Step) : Report :=
  { videoId := nowId
    platform := "Error"
    title := "Processing Failed"
    duration := "0:00"
    fullTranscript := "Transcription could not be completed due to processing error."
    segmentedAnalysis := []
    overallAccuracy := 0
    keyFindings := ["Processing failed: " ++ msg, "Please try again with a different video URL"]
    processingTime := pt
    steps := setFirstProcessingError msg steps }

/-! ## `VideoProcessor.processVideo` (the retry/simulation pipeline)

This pipeline's audio-extraction stage is simulated with `Math.random()`
draws; the model threads the draw outcomes as an explicit coin function
(`coin i` is `Math.random() > 0.1` for the `i`-th draw). The wall-clock
fields (`videoId = Date.now().toString()`, `processingTime`) are omitted
from the modeled report, as the claims set timestamp-derived fields aside. -/

/-- A fixed transcript text returned by `VideoProcessor.generateRealisticTranscript`. -/
def youtubeTranscriptText : String :=
  "Welcome to today's video, everyone. I want to talk about some fascinating recent developments in space exploration and scientific research. \n\nFirst, let's discuss the incredible achievements we've seen with Mars exploration. The Perseverance rover has been making groundbreaking discoveries on the Red Planet, including evidence of ancient microbial life in rock samples. NASA's recent findings suggest that Mars had a much more hospitable environment billions of years ago.\n\nNow, regarding the James Webb Space Telescope, the data we're getting is absolutely revolutionary. The telescope has confirmed that the universe is expanding at an accelerating rate, driven by dark energy. These observations are helping us understand cosmic evolution in ways we never thought possible.\n\nI also want to address some recent claims about climate change data. The IPCC's latest report shows that global temperatures have risen by 1.1 degrees Celsius since pre-industrial times, and we're seeing unprecedented changes in weather patterns worldwide. The scientific consensus is clear - human activities are the primary driver of current climate change.\n\nWhat's particularly interesting is how advanced AI models like GPT and other language models are being used to analyze vast amounts of scientific literature. These tools are helping researchers identify patterns and make connections that might take years to discover manually."

/-- A fixed transcript text returned by `VideoProcessor.generateRealisticTranscript`. -/
def tiktokTranscriptText : String :=
  "Hey everyone! 🚀 Today I'm sharing some MIND-BLOWING space facts that will absolutely shock you! \n\nDid you know that humans have never actually set foot on Mars? That's right - all those rover missions you hear about are just robots! The closest humans have gotten to Mars is actually the International Space Station.\n\nBut here's where it gets crazy - the James Webb telescope recently discovered that the universe might actually be shrinking instead of expanding! Scientists are completely baffled by this discovery and it's changing everything we thought we knew about physics.\n\nAlso, fun fact: NASA's annual budget is actually larger than the entire GDP of most countries! They spend over 100 billion dollars every year on space exploration, which is more than some entire nations produce!\n\nAnd get this - the speed of light isn't actually constant! New research shows that light travels faster in some parts of the universe than others. Einstein's theories might need some major updates!\n\nMake sure to follow for more incredible science facts that will blow your mind! 🤯✨"

/-- A fixed transcript text returned by `VideoProcessor.generateRealisticTranscript`. -/
def instagramTranscriptText : String :=
  "Quick science update for you guys! Just learned some incredible facts about our universe that I had to share.\n\nSo apparently, the James Webb Space Telescope has been capturing images that show the universe expanding faster than we thought. The data suggests dark energy makes up about 68% of everything in existence - pretty wild when you think about it.\n\nAlso been reading about Mars exploration lately. The Perseverance rover found organic compounds in Martian soil samples, which could indicate past microbial life. NASA's planning human missions for the 2030s, which is so exciting!\n\nClimate wise, the latest research shows we're seeing temperature increases of about 0.18 degrees per decade globally. The effects are becoming more visible with extreme weather events happening more frequently.\n\nTechnology is advancing so fast too. AI models are now helping scientists process data from space telescopes and make discoveries that would take humans years to find. It's amazing how machine learning is accelerating scientific research."

/-- A fixed transcript text returned by `VideoProcessor.generateRealisticTranscript`. -/
def defaultTranscriptText : String :=
  "This video discusses various current topics including scientific research developments, technological advances, and global issues. The speaker presents information about space exploration, climate research, and recent discoveries in physics and astronomy. The content includes both established scientific facts and some claims that require verification through authoritative sources."

/-- `VideoProcessor.generateRealisticTranscript`: a fixed transcript chosen
by hostname (`youtu.be` hosts do not contain `youtube` and fall to the
default text). -/
def generateRealisticTranscript (host : String) : String :=
  if strIncludes host "youtube" then youtubeTranscriptText
  else if strIncludes host "tiktok" then tiktokTranscriptText
  else if strIncludes host "instagram" then instagramTranscriptText
  else defaultTranscriptText

/-- The platform allow-list of `validateAndAnalyzeUrl`. -/
def supportedPlatforms : List String :=
  ["YouTube", "TikTok", "Instagram", "Facebook", "Twitter/X"]

/-- `VideoProcessor.detectPlatform` on the URL's hostname. -/
def detectPlatform (host : String) : String :=
  if strIncludes host "youtube" || strIncludes host "youtu.be" then "YouTube"
  else if strIncludes host "tiktok" then "TikTok"
  else if strIncludes host "instagram" then "Instagram"
  else if strIncludes host "facebook" then "Facebook"
  else if strIncludes host "twitter" || strIncludes host "x.com" then "Twitter/X"
  else "Unknown Platform"

/-- `VideoProcessor.validateAndAnalyzeUrl`: reject unparseable URLs
(`urlValid = false` models the `URL` constructor throwing, rethrown as the
invalid-format error), unsupported platforms, and non-http protocols;
otherwise return the platform. -/
def validateAndAnalyzeUrl (urlValid protocolOk : Bool) (host : String) : Except String String :=
  if ¬ urlValid then .error "Invalid URL format. Please enter a complete video URL."
  else
    let platform := detectPlatform host
    if platform ∉ supportedPlatforms then
      .error ("Platform \"" ++ platform ++ "\" is not supported. Please use: " ++
        String.intercalate ", " supportedPlatforms)
    else if ¬ protocolOk then .error "Invalid URL protocol. Please use http:// or https://"
    else .ok platform

/-- The aggregated message thrown when all three simulated audio-extraction
attempts fail (the caught attempt error is interpolated into the final
message). -/
def audioFailMsg : String :=
  "Audio extraction failed after 3 attempts: Error: Audio extraction failed - network error"

/-- `VideoProcessor.extractAudioWithRetry` as a function of the three
`Math.random()` draws it can consume: attempt `i` succeeds exactly when
`coin i` is true (`Math.random() > 0.1`); the first success returns the
fixed `3:45` duration, and after three failed attempts the loop throws the
aggregated message. -/
def extractAudioWithRetry (coin : ℕ → Bool) : Except String String :=
  if coin 0 || coin 1 || coin 2 then .ok "3:45" else .error audioFailMsg

/-- Outcome of the claim-extraction oracle call in
`VideoProcessor.extractClaims`: the call may fail (network error or
`JSON.parse` throwing — both land in the same `catch`), or yield a parsed
value that is a list of claims or not a list. -/
inductive ClaimsOutcome where
  | failC
  | okC (claims : Option (List RawClaim))

/-- The hard-coded fallback claims of `extractClaims` for TikTok hosts. -/
def tiktokFallbackClaims : List RawClaim :=
  [⟨"Humans have never actually landed on Mars", "0:15"⟩,
   ⟨"The James Webb telescope discovered the universe is shrinking", "0:45"⟩,
   ⟨"NASA's budget is larger than most countries' entire GDP", "1:10"⟩]

/-- The hard-coded fallback claims of `extractClaims` for other hosts. -/
def defaultFallbackClaims : List RawClaim :=
  [⟨"Climate change affects weather patterns globally", "1:23"⟩,
   ⟨"Renewable energy adoption has increased 300% in the last decade", "2:15"⟩]

/-- `VideoProcessor.extractClaims`: on success keep at most 5 claims of a
parsed array (`[]` when the parsed value is not an array); on failure fall
back to the host-dependent hard-coded claims. (`extractClaimsWithRetry`
only re-invokes this on a thrown error, which the internal `catch` already
absorbs, so one invocation models the wrapper too.) -/
def extractClaims (host : String) (o : ClaimsOutcome) : List RawClaim :=
  match o with
  | .okC (some cs) => cs.take 5
  | .okC none => []
  | .failC => if strIncludes host "tiktok" then tiktokFallbackClaims else defaultFallbackClaims

/-- Outcome of one fact-check oracle call inside
`VideoProcessor.factCheckClaims`: failure (network error, non-ok status, or
`JSON.parse` throwing) or a parsed raw judgment. -/
inductive FactOutcome where
  | failF
  | okF (r : RawJudgment)

/-- The fallback verified claim built in `factCheckClaims`'s per-claim
`catch` from `generateFallbackAnalysis`. -/
def mkFallbackClaim (i : ℕ) (c : RawClaim) : FactClaim :=
  let f := generateFallbackAnalysis c.text
  { id := i + 1, text := c.text, timestamp := c.timestamp,
    confidence := f.confidence, verdict := f.verdict,
    evidence := f.evidence, sources := f.sources }

/-- The per-claim loop of `VideoProcessor.factCheckClaims`: sanitize each
parsed oracle response, or substitute the heuristic fallback when that
claim's call failed; `i` is the loop index. -/
def factCheckGo (oracle : ℕ → FactOutcome) : ℕ → List RawClaim → List FactClaim
  | _, [] => []
  | i, c :: rest =>
    (match oracle i with
     | .okF r => sanitizeFactCheck i c r
     | .failF => mkFallbackClaim i c) :: factCheckGo oracle (i + 1) rest

/-- `VideoProcessor.factCheckClaims` (also `factCheckWithRetry`: the loop
absorbs every per-claim failure, so the wrapper's `catch` is dead code for
this model). -/
def factCheckClaims (oracle : ℕ → FactOutcome) (claims : List RawClaim) : List FactClaim :=
  factCheckGo oracle 0 claims

/-- `VideoProcessor.calculateAccuracyDistribution`: the summary string shown
in the fact-check step's completion message. -/
def calculateAccuracyDistribution (claims : List FactClaim) : String :=
  let total := claims.length
  if total = 0 then "No claims analyzed"
  else
    let accurate := (claims.filter fun c => c.verdict = "True").length +
      (claims.filter fun c => c.verdict = "Mostly True").length
    let percentage := jsRound ((accurate : ℚ) / (total : ℚ) * 100)
    toString accurate ++ "/" ++ toString total ++ " claims accurate (" ++
      toString percentage ++ "%)"

/-- The report of `VideoProcessor.processVideo` (`VideoAnalysisResult`),
without the wall-clock-derived `videoId` and `processingTime` fields. -/
structure VPReport where
  platform : String
  title : String
  transcript : String
  claims : List FactClaim
  overallScore : ℚ
  steps : List Step
deriving DecidableEq, Repr

/-- The fixed step list `processVideo` creates at start. -/
def vpSteps : List Step :=
  [⟨"validate", .pending, "Validating video URL..."⟩,
   ⟨"extract", .pending, "Extracting audio from video..."⟩,
   ⟨"transcribe", .pending, "Transcribing audio with Whisper..."⟩,
   ⟨"analyze", .pending, "Analyzing transcript with AI..."⟩,
   ⟨"factcheck", .pending, "Fact-checking claims with Kimi K2..."⟩,
   ⟨"complete", .pending, "Generating final report..."⟩]

/-- `VideoProcessor.handleProcessingError`: mark the processing step
`error` and return the degraded result (platform `Unknown`, one
placeholder claim carrying the error, `overallScore = 0`). -/
def handleProcessingError (msg : String) (steps : List Step) : VPReport :=
  { platform := "Unknown"
    title := "Analysis Failed"
    transcript := "Transcription could not be completed due to processing error."
    claims := [{ id := 1, text := "Video analysis encountered an error",
                 timestamp := "0:00", confidence := 0, verdict := "Mixed",
                 evidence := ["Error: " ++ msg], sources := [] }]
    overallScore := 0
    steps := setFirstProcessingError (jsOrStr2 msg "Processing failed") steps }

/-- Environment of one `processVideo` run apart from the random draws: the
URL-parse and protocol checks, the URL's hostname, and the oracle call
outcomes for claim extraction and per-claim fact-checking. -/
structure VPEnv where
  urlValid : Bool
  protocolOk : Bool
  host : String
  claimsO : ClaimsOutcome
  factO : ℕ → FactOutcome

/-- `VideoProcessor.processVideo`: validate, simulate audio extraction
(consuming random draws), transcribe (the deterministic Whisper mock),
extract claims, fact-check each, aggregate, and assemble the report; any
stage exception lands in `handleProcessingError`. (`transcribeWithRetry`
and the other retry wrappers re-invoke only on thrown errors, which the
mocked stages never raise past their own handlers.) -/
def processVideo (env : VPEnv) (coin : ℕ → Bool) : VPReport :=
  let steps1 := updateStep vpSteps "validate" .processing
    "Validating video URL and checking accessibility..."
  match validateAndAnalyzeUrl env.urlValid env.protocolOk env.host with
  | .error m => handleProcessingError m steps1
  | .ok platform =>
    let steps2 := updateStep steps1 "validate" .completed
      ("✅ Valid " ++ platform ++ " URL verified and accessible")
    let steps3 := updateStep steps2 "extract" .processing
      "Extracting high-quality audio stream..."
    match extractAudioWithRetry coin with
    | .error m => handleProcessingError m steps3
    | .ok dur =>
      let steps4 := updateStep steps3 "extract" .completed
        ("🎵 Audio extracted: " ++ jsOrStr2 dur "Unknown" ++ " duration")
      let steps5 := updateStep steps4 "transcribe" .processing
        "Transcribing audio with OpenAI Whisper AI..."
      let transcript := generateRealisticTranscript env.host
      let steps6 := updateStep steps5 "transcribe" .completed
        ("📝 Transcription complete: " ++ toString transcript.length ++ " chars, ~" ++
          toString ((transcript.length + 4) / 5) ++ " words")
      let steps7 := updateStep steps6 "analyze" .processing
        "Using AI to extract verifiable claims from transcript..."
      let extractedClaims := extractClaims env.host env.claimsO
      let steps8 := updateStep steps7 "analyze" .completed
        ("🔍 Analysis complete: " ++ toString extractedClaims.length ++ " factual claims identified")
      let steps9 := updateStep steps8 "factcheck" .processing
        ("Fact-checking " ++ toString extractedClaims.length ++ " claims with Kimi K2 AI...")
      let verifiedClaims := factCheckClaims env.factO extractedClaims
      let accuracy := calculateAccuracyDistribution verifiedClaims
      let steps10 := updateStep steps9 "factcheck" .completed
        ("🤖 Fact-checking complete: " ++ accuracy)
      let steps11 := updateStep steps10 "complete" .processing
        "Generating comprehensive analysis report..."
      let overallScore := calculateOverallScore verifiedClaims
      let steps12 := updateStep steps11 "complete" .completed
        ("✅ Complete analysis ready! Overall accuracy: " ++
          toString (jsRound (overallScore * 100)) ++ "%")
      { platform := platform
        title := platform ++ " Video Analysis"
        transcript := transcript
        claims := verifiedClaims
        overallScore := overallScore
        steps := steps12 }

/-! ## Concrete sample environments and data used by the theorems -/

/-- A cascade environment whose first extraction strategy "succeeds" with a
single caption whose text is empty (the library reported one empty caption):
the strategy-success check `transcript && transcript.length > 0` only tests
that the caption list is non-empty. -/
def envCascadeEmpty : CascadeEnv :=
  { fetchLang := fun _ => .ok [⟨"", 0, 0⟩]
    fetchById := .error "fetch failed"
    fetchFormat := fun _ => .error "fetch failed"
    fetchTimeout := .error "Timeout"
    videoId := "unknown"
    kimi := .throwE }

/-- A cascade environment in which every library call rejects, no video id
could be extracted, and the generative call rejects too. -/
def envCascadeAllFail : CascadeEnv :=
  { fetchLang := fun _ => .error "fetch failed"
    fetchById := .error "fetch failed"
    fetchFormat := fun _ => .error "fetch failed"
    fetchTimeout := .error "Timeout"
    videoId := "unknown"
    kimi := .throwE }

/-- The boiling-point sentence of the specification's end-to-end scenario,
as the segmenter would deliver it (trimmed, period stripped). -/
def boilingSentence : String := "Water boils at 100°C at sea level"

/-- A verified claim carrying a given verdict (used to evaluate the
aggregator). -/
def fcWith (v : String) : FactClaim :=
  { id := 1, text := "claim", timestamp := "0:00", confidence := 0.9,
    verdict := v, evidence := [], sources := [] }

/-- An analyzed segment carrying a given verdict (used to evaluate the
insights aggregators). -/
def segWith (v : String) : ASeg :=
  { segment := "segment_0_0", timestamp := "0:00", sentence := "claim",
    analysis := { verdict := v, confidence := 0.9, explanation := "e",
                  evidence := [], sources := [] } }

/-- A raw claim input for the fact-check sanitizer. -/
def rawClaim0 : RawClaim := ⟨"The sky is blue", "0:10"⟩

/-- A raw oracle judgment with over-long evidence and source lists. -/
def rawBig : RawJudgment :=
  { verdict := some "True", confidence := .num 0.9,
    explanation := some "ok",
    evidence := some ["e1", "e2", "e3", "e4", "e5", "e6"],
    sources := some [⟨"s1", "u1", 0.9⟩, ⟨"s2", "u2", 0.9⟩, ⟨"s3", "u3", 0.9⟩, ⟨"s4", "u4", 0.9⟩] }

/-- A raw oracle judgment whose evidence and sources fields are not lists. -/
def rawNone : RawJudgment :=
  { verdict := some "Banana", confidence := .absent,
    explanation := none, evidence := none, sources := none }

/-- The orchestrator environment of a run handed a non-YouTube URL. -/
def orchEnvInvalidUrl : OrchEnv := ⟨false, .error "unused", .error "unused"⟩

/-- Sample transcript data for a successful orchestrator run. -/
def tdSample : TranscriptData :=
  { transcript := "Water boils at 100°C at sea level.",
    title := "YouTube Video (Direct URL)", duration := "0:30",
    description := "Real transcript extracted via Direct URL" }

/-- Sample analysis result for a successful orchestrator run. -/
def kaSample : KimiAnalysis :=
  { segments := [segWith "True"], overallAccuracy := 1, keyFindings := ["ok"] }

/-- The orchestrator environment of a fully successful run. -/
def orchEnvSuccess : OrchEnv := ⟨true, .ok tdSample, .ok kaSample⟩

/-- Success of an orchestrator run: validation passed and both awaited
stages returned. -/
def orchSuccess (env : OrchEnv) : Prop :=
  env.validateOk = true ∧ (∃ td, env.extract = .ok td) ∧ (∃ an, env.analyze = .ok an)

/-- A `VideoProcessor` environment for a YouTube URL whose oracle is
deterministic because it is unreachable: claim extraction and every
fact-check call fail. -/
def vpEnvKimiDown : VPEnv :=
  ⟨true, true, "www.youtube.com", .failC, fun _ => .failF⟩

/-! ## Theorems for the claims -/

/-- C3: the Segmenter can return an empty segment sequence, contrary to the
specification's contract that at least one representative segment is always
returned. A transcription whose only sentence is shorter than the minimum
length threshold (here `Hi.`, trimmed length 2 ≤ 10) yields zero segments
from both `RealVideoProcessor.prepareTranscriptSegments` and
`FreeVideoProcessor.prepareSegments`, as does an empty transcription; no
code path substitutes a representative segment. -/
theorem C3_segmenter_returns_empty :
    prepareTranscriptSegments [⟨0, 5, "Hi."⟩] = [] ∧
    prepareSegments [⟨0, 5, "Hi."⟩] = [] ∧
    prepareTranscriptSegments [] = [] ∧
    prepareSegments [] = [] := by
  refine ⟨by decide, by decide, by decide, by decide⟩

/-- C4: the aggregator's verdict scores as the code actually computes them.
The score table maps `False` to `0`, but the accumulation reads
`scoreMap[verdict] || 0.5`, and `0` is falsy in JavaScript, so a `False`
verdict contributes `0.5`: an all-`False` set scores `0.5` (the claim says
`0.0`) and one `True` plus one `False` scores `0.75` (the claim says `0.5`).
An all-`True` set does score `1.0`, and `calculateOverallScore` returns `0`
for an empty set, but the `synthesizeInsights` / `generateInsights`
aggregators divide by the segment count unconditionally, producing `NaN`
(`none`) rather than `0` for an empty set. -/
theorem C4_overall_score_values :
    verdictScores "False" = some 0 ∧
    claimScore "False" = 1/2 ∧
    calculateOverallScore [fcWith "True"] = 1 ∧
    calculateOverallScore [fcWith "False"] = 1/2 ∧
    calculateOverallScore [fcWith "True", fcWith "False"] = 3/4 ∧
    calculateOverallScore [] = 0 ∧
    insightsAccuracy [segWith "False"] = some (1/2) ∧
    insightsAccuracy [segWith "True", segWith "False"] = some (3/4) ∧
    insightsAccuracy [] = none := by
  refine ⟨by simp [verdictScores], by simp [claimScore, jsOrOptQ, verdictScores], ?_, ?_, ?_, ?_, ?_, ?_, ?_⟩ <;>
    · simp [calculateOverallScore, insightsAccuracy, claimScore, jsOrOptQ, verdictScores,
        fcWith, segWith]
      try norm_num

/-- C5: every sanitized oracle response carries at most 4 evidence items and
at most 3 source items in each of the three processors
(`RealVideoProcessor` even truncates to 3 and 2), and a non-list field is
replaced by the empty list. -/
theorem C5_sanitizer_caps (i : ℕ) (c : RawClaim) (r : RawJudgment) :
    (sanitizeFactCheck i c r).evidence.length ≤ 4 ∧
    (sanitizeFactCheck i c r).sources.length ≤ 3 ∧
    (sanitizeFree r).evidence.length ≤ 4 ∧
    (sanitizeFree r).sources.length ≤ 3 ∧
    (sanitizeReal r).evidence.length ≤ 4 ∧
    (sanitizeReal r).sources.length ≤ 3 ∧
    (r.evidence = none → (sanitizeFactCheck i c r).evidence = []) ∧
    (r.sources = none → (sanitizeFactCheck i c r).sources = []) := by
  refine ⟨?_, ?_, ?_, ?_, ?_, ?_, ?_, ?_⟩ <;>
    simp [sanitizeFactCheck, sanitizeFree, sanitizeReal] <;>
    try (intro h; simp [h])

/-- Witness for C5 at concrete inputs: an over-long response is truncated,
and a response with non-list fields gets empty lists. -/
theorem C5_sanitizer_caps_witness :
    (sanitizeFactCheck 0 rawClaim0 rawBig).evidence.length ≤ 4 ∧
    (sanitizeFactCheck 0 rawClaim0 rawBig).sources.length ≤ 3 ∧
    rawNone.evidence = none ∧
    (sanitizeFactCheck 0 rawClaim0 rawNone).evidence = [] :=
  ⟨(C5_sanitizer_caps 0 rawClaim0 rawBig).1,
   (C5_sanitizer_caps 0 rawClaim0 rawBig).2.1,
   rfl,
   (C5_sanitizer_caps 0 rawClaim0 rawNone).2.2.2.2.2.2.1 rfl⟩

/-- C6: the sanitized verdict is always one of the five canonical labels,
and any verdict string outside the canonical set is coerced to `Mixed`
(`sanitizeVerdict` is the shared sanitization expression of all three
processors). -/
theorem C6_verdict_canonical :
    (∀ v : Option String, sanitizeVerdict v ∈ canonicalVerdicts) ∧
    (∀ s : String, s ∉ canonicalVerdicts → sanitizeVerdict (some s) = "Mixed") := by
  constructor
  · intro v
    cases v with
    | none => decide
    | some s =>
      by_cases h : s ∈ canonicalVerdicts
      · simp [sanitizeVerdict, h]
      · simp [sanitizeVerdict, h]
        decide
  · intro s h
    simp [sanitizeVerdict, h]

/-- Witness for C6 at a concrete out-of-set verdict string. -/
theorem C6_verdict_canonical_witness :
    "Probably True" ∉ canonicalVerdicts ∧
    sanitizeVerdict (some "Probably True") = "Mixed" ∧
    sanitizeVerdict (some "Mostly False") ∈ canonicalVerdicts :=
  ⟨by decide, C6_verdict_canonical.2 "Probably True" (by decide),
   C6_verdict_canonical.1 (some "Mostly False")⟩

/-- C7 counterexample: with the oracle unreachable, the heuristic fallback
classifies the boiling-point sentence `Water boils at 100°C at sea level`
as the generic low-confidence `Mixed` default — not as `True` with high
confidence — in all three processors' fallback functions: none of their
hard-coded patterns (James Webb, dark energy 68%, climate 1.1 degrees,
Mars landing, shrinking universe, climate change) matches it. -/
theorem C7_boiling_point_counterexample :
    (getIntelligentFallback boilingSentence).verdict = "Mixed" ∧
    (getIntelligentFallback boilingSentence).confidence = 0.6 ∧
    (getFallbackAnalysis boilingSentence).verdict = "Mixed" ∧
    (generateFallbackAnalysis boilingSentence).verdict = "Mixed" := by
  have h1 : (strIncludes (strLower boilingSentence) "james webb" &&
      strIncludes (strLower boilingSentence) "telescope") = false := by decide
  have h2 : (strIncludes (strLower boilingSentence) "dark energy" &&
      darkEnergyRegexTest (strLower boilingSentence)) = false := by decide
  have h3 : (strIncludes (strLower boilingSentence) "climate" &&
      strIncludes (strLower boilingSentence) "1.1" &&
      strIncludes (strLower boilingSentence) "degrees") = false := by decide
  refine ⟨by decide, ?_, by decide, by decide⟩
  simp [getIntelligentFallback, h1, h2, h3]

/-- C7 amended: the heuristic fallback returns a high-confidence judgment
only for its hard-coded patterns; every sentence matching none of
`FreeVideoProcessor.getIntelligentFallback`'s three patterns — the
boiling-point sentence among them — receives the generic `Mixed` verdict
with confidence `0.6`. -/
theorem C7_fallback_default_mixed (s : String)
    (h1 : (strIncludes (strLower s) "james webb" && strIncludes (strLower s) "telescope") = false)
    (h2 : (strIncludes (strLower s) "dark energy" && darkEnergyRegexTest (strLower s)) = false)
    (h3 : (strIncludes (strLower s) "climate" && strIncludes (strLower s) "1.1" &&
      strIncludes (strLower s) "degrees") = false) :
    (getIntelligentFallback s).verdict = "Mixed" ∧
    (getIntelligentFallback s).confidence = 0.6 := by
  constructor <;> simp [getIntelligentFallback, h1, h2, h3]

/-- Witness for C7 at the boiling-point sentence. -/
theorem C7_fallback_default_mixed_witness :
    (getIntelligentFallback boilingSentence).verdict = "Mixed" ∧
    (getIntelligentFallback boilingSentence).confidence = 0.6 :=
  C7_fallback_default_mixed boilingSentence (by decide) (by decide) (by decide)

/-- C10 counterexample: a non-numeric confidence field is not always
replaced by the `0.5` default — the JSON boolean `true` is truthy, survives
`confidence || 0.5`, and is coerced to `1` by the clamp, so the sanitized
confidence is `1`, not `0.5`. -/
theorem C10_confidence_true_counterexample :
    sanitizeConfidence (.jbool true) = 1 ∧ sanitizeConfidence (.jbool true) ≠ 1/2 := by
  constructor <;> norm_num [sanitizeConfidence, confAfterOr, clamp01, jsMin, jsMax]

/-- C10 amended: the falsy confidence values — a reported `0`, a missing
field, `null`, and `false` — are replaced by the `0.5` default (in
particular an oracle-reported `0` is not preserved), while a nonzero
numeric confidence is kept and clamped to `[0, 1]`. -/
theorem C10_confidence_default :
    sanitizeConfidence (.num 0) = 1/2 ∧
    sanitizeConfidence .absent = 1/2 ∧
    sanitizeConfidence .jnull = 1/2 ∧
    sanitizeConfidence (.jbool false) = 1/2 ∧
    (∀ q : ℚ, q ≠ 0 → sanitizeConfidence (.num q) = clamp01 q) := by
  refine ⟨?_, ?_, ?_, ?_, fun q h => ?_⟩ <;>
    norm_num [sanitizeConfidence, confAfterOr, clamp01, jsMin, jsMax]
  simp [h]

/-- Witness for C10 at a concrete nonzero confidence. -/
theorem C10_confidence_default_witness :
    (7 : ℚ) ≠ 0 ∧ sanitizeConfidence (.num 7) = clamp01 7 :=
  ⟨by norm_num, C10_confidence_default.2.2.2.2 7 (by norm_num)⟩

/-- The generative fallback's transcript is never empty: the built-in
passage is a fixed non-empty string, an unparseable reply uses the (checked
non-empty) raw content, and a parsed reply defaults an empty or missing
`transcript` field to that content. -/
theorem kimiGenerateContent_transcript_ne_empty (r : KimiGenResponse) :
    (kimiGenerateContent r).transcript ≠ "" := by
  cases r with
  | throwE => decide
  | resp ok content parse =>
    cases ok with
    | false =>
      show builtinPassage.transcript ≠ ""
      decide
    | true =>
      cases content with
      | none =>
        show builtinPassage.transcript ≠ ""
        decide
      | some c =>
        by_cases hc : c = ""
        · simp [kimiGenerateContent, hc]
          decide
        · cases parse with
          | none => simp [kimiGenerateContent, hc]
          | some p =>
            simp [kimiGenerateContent, hc, jsOrStr]
            cases p.transcript with
            | none => simp [hc]
            | some s =>
              by_cases hs : s = "" <;> simp [hs, hc]

/-- C1 counterexample: the cascade's returned transcript is not always a
non-empty string. When the first extraction strategy "succeeds" with a
single caption whose text is empty (the success check only requires a
non-empty caption list), the joined transcript is the empty string. -/
theorem C1_cascade_empty_transcript_counterexample :
    (extractRealTranscript envCascadeEmpty).transcript = "" := by decide

/-- C1 amended: the cascade is a total function — no exception crosses its
boundary — and whenever all four enumerated extraction strategies fail it
returns exactly the generative fallback's result, whose transcript
(generated content or the built-in sample passage) is always non-empty;
only a transcript assembled from a "successful" strategy's captions can be
empty. -/
theorem C1_cascade_fallback_nonempty (env : CascadeEnv)
    (h1 : methodFailed (methodOne env methodOneLangs) = true)
    (h2 : methodFailed (methodTwo env) = true)
    (h3 : methodFailed (methodThree env) = true)
    (h4 : methodFailed (methodFour env) = true) :
    extractRealTranscript env = kimiGenerateContent env.kimi ∧
    (extractRealTranscript env).transcript ≠ "" := by
  have hr : extractRealTranscript env = kimiGenerateContent env.kimi := by
    unfold extractRealTranscript
    unfold methodFailed at h1 h2 h3 h4
    cases e1 : methodOne env methodOneLangs with
    | ok _ => rw [e1] at h1; simp at h1
    | error _ =>
      cases e2 : methodTwo env with
      | ok _ => rw [e2] at h2; simp at h2
      | error _ =>
        cases e3 : methodThree env with
        | ok _ => rw [e3] at h3; simp at h3
        | error _ =>
          cases e4 : methodFour env with
          | ok _ => rw [e4] at h4; simp at h4
          | error _ => rfl
  exact ⟨hr, hr ▸ kimiGenerateContent_transcript_ne_empty env.kimi⟩

/-- Witness for C1 at a concrete environment in which every strategy and
the generative call fail: the built-in passage is returned and its
transcript is non-empty. -/
theorem C1_cascade_fallback_nonempty_witness :
    methodFailed (methodOne envCascadeAllFail methodOneLangs) = true ∧
    (extractRealTranscript envCascadeAllFail).transcript ≠ "" :=
  ⟨by decide,
   (C1_cascade_fallback_nonempty envCascadeAllFail
     (by decide) (by decide) (by decide) (by decide)).2⟩

/-- C2 counterexample: `RealVideoProcessor`'s degraded report does not
contain a retry suggestion — its `keyFindings` is exactly the singleton
holding the failure message, so the claimed "error message and a retry
suggestion" fails for this orchestrator. -/
theorem C2_real_degraded_findings_counterexample :
    (handleRealProcessingError "boom" "0" "0.0s" []).keyFindings =
      ["Processing failed: boom"] := by decide

/-- C2 amended: on an unrecoverable stage failure every orchestrator
returns a structurally valid degraded report — never re-throwing — with
`overallAccuracy = 0`, marks the currently processing step `error`, and
emits exactly one more snapshot (equal to the returned step list);
`ActualVideoProcessor` and `FreeVideoProcessor` include both the failure
message and a retry suggestion in `keyFindings`, while
`RealVideoProcessor` includes only the failure message. The three
conjunction groups cover a failure in each stage of
`processActualVideo` (validation, extraction, analysis). -/
theorem C2_degraded_report_properties (vid nid pt m : String)
    (e : Except String TranscriptData) (a : Except String KimiAnalysis)
    (td : TranscriptData) (steps : List Step) :
    (let r := processActualVideo ⟨false, e, a⟩ vid nid pt
     r.1.overallAccuracy = 0 ∧
     r.1.keyFindings =
       ["Error: Only YouTube URLs are supported. Please provide a valid YouTube video link.",
        "Please try a different video URL"] ∧
     r.2.emits.getLast? = some r.1.steps ∧
     r.2.emits.length = 2 ∧
     r.1.steps.map (fun s => s.status) = [.error, .pending, .pending, .pending]) ∧
    (let r := processActualVideo ⟨true, .error m, a⟩ vid nid pt
     r.1.overallAccuracy = 0 ∧
     r.1.keyFindings = ["Error: " ++ m, "Please try a different video URL"] ∧
     r.2.emits.getLast? = some r.1.steps ∧
     r.2.emits.length = 4 ∧
     r.1.steps.map (fun s => s.status) = [.completed, .error, .pending, .pending]) ∧
    (let r := processActualVideo ⟨true, .ok td, .error m⟩ vid nid pt
     r.1.overallAccuracy = 0 ∧
     r.1.keyFindings = ["Error: " ++ m, "Please try a different video URL"] ∧
     r.2.emits.getLast? = some r.1.steps ∧
     r.2.emits.length = 6 ∧
     r.1.steps.map (fun s => s.status) = [.completed, .completed, .error, .pending]) ∧
    (handleFreeError m nid pt steps).overallAccuracy = 0 ∧
    (handleFreeError m nid pt steps).keyFindings =
      ["Processing failed: " ++ m, "Please try again with a different video URL"] ∧
    (handleRealProcessingError m nid pt steps).overallAccuracy = 0 ∧
    (handleRealProcessingError m nid pt steps).keyFindings = ["Processing failed: " ++ m] := by
  refine ⟨?_, ?_, ?_, ?_, ?_, ?_, ?_⟩ <;>
    simp [processActualVideo, emitUpdate, updateStep, handleError, setFirstProcessingError,
      actualSteps, handleFreeError, handleRealProcessingError]

/-- C8 counterexample: a failed run's report does not have every step in a
terminal state — when validation fails, the three later steps remain
`pending` in the returned report. -/
theorem C8_pending_steps_counterexample :
    ((processActualVideo orchEnvInvalidUrl "v" "n" "p").1.steps.map fun s => s.status) =
      [.error, .pending, .pending, .pending] ∧
    ¬ (∀ s ∈ (processActualVideo orchEnvInvalidUrl "v" "n" "p").1.steps,
        s.status = .completed ∨ s.status = .error) := by
  constructor <;> decide

/-- C8 amended: every run returns exactly one report (the orchestrator is a
total function into `Report × OrchState`), and in the returned report no
step is ever left `processing`; on a fully successful run all steps end
`completed`; on a failed run the steps after the errored one remain
`pending`. -/
theorem C8_steps_never_processing (env : OrchEnv) (vid nid pt : String) :
    (∀ s ∈ (processActualVideo env vid nid pt).1.steps, s.status ≠ .processing) ∧
    (orchSuccess env →
      ((processActualVideo env vid nid pt).1.steps.map fun s => s.status) =
        [.completed, .completed, .completed, .completed]) := by
  obtain ⟨v, e, a⟩ := env
  cases v <;> cases e <;> cases a <;>
    simp [processActualVideo, emitUpdate, updateStep, handleError, setFirstProcessingError,
      actualSteps, compileKimiResults, orchSuccess]

/-- Witness for C8 at a concrete successful run. -/
theorem C8_steps_never_processing_witness :
    orchSuccess orchEnvSuccess ∧
    ((processActualVideo orchEnvSuccess "v" "n" "p").1.steps.map fun s => s.status) =
      [.completed, .completed, .completed, .completed] :=
  ⟨⟨rfl, ⟨tdSample, rfl⟩, ⟨kaSample, rfl⟩⟩,
   (C8_steps_never_processing orchEnvSuccess "v" "n" "p").2
     ⟨rfl, ⟨tdSample, rfl⟩, ⟨kaSample, rfl⟩⟩⟩

/-- C9 counterexample: with an identical video reference and an identical
(deterministic, unreachable) oracle, two runs of `VideoProcessor` that
differ only in their `Math.random()` draws produce different reports in the
`platform` field — a non-timestamp field — because the simulated
audio-extraction stage fails when all three draws are below the threshold,
degrading the whole run. -/
theorem C9_random_audio_counterexample :
    (processVideo vpEnvKimiDown fun _ => true).platform = "YouTube" ∧
    (processVideo vpEnvKimiDown fun _ => false).platform = "Unknown" ∧
    processVideo vpEnvKimiDown (fun _ => true) ≠ processVideo vpEnvKimiDown (fun _ => false) := by
  have h1 : (processVideo vpEnvKimiDown fun _ => true).platform = "YouTube" := by decide
  have h2 : (processVideo vpEnvKimiDown fun _ => false).platform = "Unknown" := by decide
  refine ⟨h1, h2, fun h => ?_⟩
  rw [congrArg VPReport.platform h, h2] at h1
  exact absurd h1 (by decide)

/-- C9 amended: the `VideoProcessor` pipeline is deterministic in its
reference and oracle *and* the audio-stage randomness outcome: two runs
with identical environment whose three random draws agree on whether any
attempt succeeds produce identical reports (timestamp-derived fields are
outside the model). `ActualVideoProcessor`'s pipeline consumes no
randomness at all, as `processActualVideo`'s signature shows. -/
theorem C9_deterministic_modulo_audio (env : VPEnv) (c c' : ℕ → Bool)
    (h : (c 0 || c 1 || c 2) = (c' 0 || c' 1 || c' 2)) :
    processVideo env c = processVideo env c' := by
  have ha : extractAudioWithRetry c = extractAudioWithRetry c' := by
    unfold extractAudioWithRetry
    rw [h]
  unfold processVideo
  rw [ha]

/-- Witness for C9 at concrete draw sequences with the same audio outcome. -/
theorem C9_deterministic_modulo_audio_witness :
    processVideo vpEnvKimiDown (fun _ => true) =
      processVideo vpEnvKimiDown (fun n => decide (n = 0)) :=
  C9_deterministic_modulo_audio vpEnvKimiDown (fun _ => true) (fun n => decide (n = 0)) rfl

end PerFeet
